import Mathlib

/-!
Verification of `jkj_handbook_generator.py`, a one-shot ReportLab script that
assembles a fixed content sequence and builds a paginated A4 PDF.

The script itself is shallowly embedded below: units, colors, page geometry,
the style registry, the full ordered content-block sequence, the per-page
decorator (`on_page` / `header_footer`), and the font-registration
`try/except` block.  The external layout engine (ReportLab/platypus) is not
part of the repository; where a property depends on the engine, the engine's
documented contract is modelled explicitly (font-name resolution against the
registered and builtin fonts, sequential flowing with automatic and explicit
page breaks, per-page decoration callbacks invoked with the canvas page
counter, and output written only when the build completes).  Each such model
carries a doc comment saying what it reflects.
-/

/-- All lengths are measured in a base unit of `1/2540` of a PostScript
point, chosen so that every numeric literal appearing in the script — the
`mm` conversion factor `72 / 25.4`, the `0.8` and `0.25` line widths, and
all font sizes — is exactly representable as an integer.  `pt` is one
point in this unit. -/
def pt : ℤ := 2540

/-- ReportLab unit: one millimetre (`mm = 72 / 25.4` points), exact in the
base unit: `(360 / 127) * 2540 = 7200`. -/
def mm : ℤ := 7200

/-- `ACCENT_VIOLET = colors.HexColor("#8A2BE2")`, modelled by its hex code. -/
def ACCENT_VIOLET : String := "#8A2BE2"

/-- `ACCENT_CRIMSON = colors.HexColor("#D7263D")`. -/
def ACCENT_CRIMSON : String := "#D7263D"

/-- `OBSIDIAN = colors.HexColor("#0B0B0D")`, the page background. -/
def OBSIDIAN : String := "#0B0B0D"

/-- `PAPER = colors.HexColor("#0F1113")`. -/
def PAPER : String := "#0F1113"

/-- `TEXT_LIGHT = colors.HexColor("#EDEDED")`. -/
def TEXT_LIGHT : String := "#EDEDED"

/-- `colors.gray`, used for table grids. -/
def GRAY : String := "gray"

/-- A4 page width in points (`PAGE_WIDTH, PAGE_HEIGHT = A4`, A4 = 210mm wide). -/
def PAGE_WIDTH : ℤ := 210 * mm

/-- A4 page height in points (297mm). -/
def PAGE_HEIGHT : ℤ := 297 * mm

/-- A primitive canvas drawing command.  `rect`/`line`/`drawRightString`
calls made by the page decorator are recorded as values; the pen state set
by `setFillColor`/`setStrokeColor`/`setLineWidth`/`setFont` before each call
is folded into the command's fields. -/
inductive DrawCmd where
  | rect (x y w h : ℤ) (fill stroke : Bool) (fillColor : String)
  | line (x1 y1 x2 y2 : ℤ) (strokeColor : String) (lineWidth : ℤ)
  | rightString (x y : ℤ) (font : String) (size : ℤ) (fillColor : String)
      (text : String)
deriving DecidableEq

/-- `header_footer(canvas_obj, doc)`: top accent line, footer line, and the
page-number stamp `f"Page {page_num}"` drawn right-aligned at
`(PAGE_WIDTH - 20*mm, 12*mm)`.  The canvas page number read by
`canvas_obj.getPageNumber()` is passed in as `pageNumber`. -/
def header_footer (pageNumber : ℕ) : List DrawCmd :=
  [ DrawCmd.line (20 * mm) (PAGE_HEIGHT - 18 * mm)
      (PAGE_WIDTH - 20 * mm) (PAGE_HEIGHT - 18 * mm) ACCENT_VIOLET (8 * pt / 10)
  , DrawCmd.line (20 * mm) (18 * mm) (PAGE_WIDTH - 20 * mm) (18 * mm)
      ACCENT_VIOLET (8 * pt / 10)
  , DrawCmd.rightString (PAGE_WIDTH - 20 * mm) (12 * mm) "SourceSans"
      (9 * pt) TEXT_LIGHT ("Page " ++ toString pageNumber) ]

/-- `on_page(canvas_obj, doc)`: paints the full-page obsidian background
rectangle (`stroke=0, fill=1`) and then calls `header_footer`.  The
`saveState`/`restoreState` pair only scopes pen state and is a no-op in this
model. -/
def on_page (pageNumber : ℕ) : List DrawCmd :=
  DrawCmd.rect 0 0 PAGE_WIDTH PAGE_HEIGHT true false OBSIDIAN
    :: header_footer pageNumber

/-- The `SimpleDocTemplate(...)` configuration: output path, page size and
the four margins. -/
structure DocTemplate where
  filename : String
  pagesize : ℤ × ℤ
  leftMargin : ℤ
  rightMargin : ℤ
  topMargin : ℤ
  bottomMargin : ℤ
deriving DecidableEq

/-- Output path `OUT_PDF`. -/
def OUT_PDF : String := "Jujutsu_Kaisen_The_Cursed_Energy_Handbook.pdf"

/-- `doc = SimpleDocTemplate(OUT_PDF, pagesize=A4, leftMargin=20*mm,
rightMargin=20*mm, topMargin=25*mm, bottomMargin=25*mm)`. -/
def doc : DocTemplate :=
  { filename := OUT_PDF
  , pagesize := (PAGE_WIDTH, PAGE_HEIGHT)
  , leftMargin := 20 * mm
  , rightMargin := 20 * mm
  , topMargin := 25 * mm
  , bottomMargin := 25 * mm }

/-- Width available to flowed content between the side margins
(the frame width the layout engine computes from the geometry). -/
def usableWidth : ℤ := doc.pagesize.1 - doc.leftMargin - doc.rightMargin

/-- Height available to flowed content between top and bottom margins. -/
def frameHeight : ℤ := doc.pagesize.2 - doc.topMargin - doc.bottomMargin

/-- Vertical interval `[bottomMargin, pageHeight - topMargin]` occupied by
flowed content.  Modelled from the spec: the layout engine confines flowed
content to the frame computed from the page geometry. -/
def frameBottom : ℤ := doc.bottomMargin

/-- Top of the content frame, see `frameBottom`. -/
def frameTop : ℤ := doc.pagesize.2 - doc.topMargin

/-- Lower edge of the vertical extent of a drawing command: a stroked line
reaches half its line width below its y-coordinate; a text stamp of font
size `s` at baseline `y` is bounded below by `y - s` (a bound generous
enough to cover any descender). -/
def cmdYLow : DrawCmd → ℤ
  | DrawCmd.rect _ y _ _ _ _ _ => y
  | DrawCmd.line _ y1 _ y2 _ w => min y1 y2 - w / 2
  | DrawCmd.rightString _ y _ s _ _ => y - s

/-- Upper edge of the vertical extent of a drawing command, see `cmdYLow`. -/
def cmdYHigh : DrawCmd → ℤ
  | DrawCmd.rect _ y _ h _ _ _ => y + h
  | DrawCmd.line _ y1 _ y2 _ w => max y1 y2 + w / 2
  | DrawCmd.rightString _ y _ s _ _ => y + s

/-- A command's vertical extent misses the content frame entirely:
it lies strictly below the frame bottom or strictly above the frame top. -/
def missesFrame (c : DrawCmd) : Bool :=
  decide (cmdYHigh c < frameBottom) || decide (frameTop < cmdYLow c)

/-- `TA_CENTER` / `TA_LEFT` / `TA_RIGHT` from `reportlab.lib.enums`. -/
inductive TextAlignment where
  | TA_CENTER
  | TA_LEFT
  | TA_RIGHT
deriving DecidableEq

/-- `ParagraphStyle(...)`: the keyword arguments actually passed by the
script.  `spaceAfter`/`spaceBefore` default to `0` when not given. -/
structure ParagraphStyle where
  name : String
  fontName : String
  fontSize : ℤ
  leading : ℤ
  alignment : TextAlignment
  textColor : String
  spaceAfter : ℤ := 0
  spaceBefore : ℤ := 0
deriving DecidableEq

/-- The `styles` dictionary (lines 73-81), keyed by the same ids. -/
def styles : List (String × ParagraphStyle) :=
  [ ("h1", { name := "h1", fontName := "SourceSans-Bold", fontSize := 28 * pt
           , leading := 34 * pt, alignment := TextAlignment.TA_CENTER
           , textColor := TEXT_LIGHT, spaceAfter := 6 * pt })
  , ("h2", { name := "h2", fontName := "SourceSans-Bold", fontSize := 18 * pt
           , leading := 22 * pt, alignment := TextAlignment.TA_LEFT
           , textColor := TEXT_LIGHT, spaceBefore := 8 * pt })
  , ("normal", { name := "normal", fontName := "SourceSans", fontSize := 11 * pt
               , leading := 15 * pt, alignment := TextAlignment.TA_LEFT
               , textColor := TEXT_LIGHT })
  , ("em", { name := "em", fontName := "SourceSans", fontSize := 11 * pt
           , leading := 15 * pt, alignment := TextAlignment.TA_LEFT
           , textColor := ACCENT_VIOLET })
  , ("toc", { name := "toc", fontName := "SourceSans", fontSize := 12 * pt
            , leading := 16 * pt, alignment := TextAlignment.TA_LEFT
            , textColor := TEXT_LIGHT })
  , ("cover_title", { name := "cover_title", fontName := "SourceSans-Bold"
                    , fontSize := 36 * pt, leading := 42 * pt
                    , alignment := TextAlignment.TA_CENTER
                    , textColor := TEXT_LIGHT })
  , ("subtitle", { name := "subtitle", fontName := "SourceSans"
                 , fontSize := 14 * pt, leading := 18 * pt
                 , alignment := TextAlignment.TA_CENTER
                 , textColor := ACCENT_VIOLET }) ]

/-- Look a style up by its id in the `styles` dictionary. -/
def lookupStyle (id : String) : Option ParagraphStyle :=
  (styles.find? (fun p => p.1 = id)).map (fun p => p.2)

/-- A table cell: either a plain string or an embedded `Paragraph`
(the two-column lore block places `Paragraph` values in cells). -/
inductive Cell where
  | text (s : String)
  | para (s : String) (styleId : String)
deriving DecidableEq

/-- One argument of a `TableStyle` command tuple after the cell range. -/
inductive StyleArg where
  | color (c : String)
  | num (q : ℤ)
  | str (s : String)
deriving DecidableEq

/-- One `TableStyle` command: name, start cell, stop cell, extra
arguments, e.g. `("GRID", (0,0), (-1,-1), 0.25, colors.gray)`. -/
structure TableStyleCmd where
  cmd : String
  start : Int × Int
  stop : Int × Int
  args : List StyleArg
deriving DecidableEq

/-- A content block appended to `elements`: the Platypus flowables this
script uses.  A `table` value carries the style later applied to it by
`setStyle` (the mutation timeline itself is modelled separately by
`scriptTrace`), plus the optional `rowHeights` and `hAlign` arguments. -/
inductive Block where
  | spacer (width height : ℤ)
  | paragraph (text : String) (styleId : String)
  | table (rows : List (List Cell)) (colWidths : List ℤ)
      (rowHeights : Option (List ℤ)) (hAlign : Option String)
      (style : List TableStyleCmd)
  | pageBreak
deriving DecidableEq

/-- One word-breaking step of Python's `textwrap.fill`: greedily pack
space-separated words into lines of at most `width` characters. -/
def fillLines (width : ℕ) : List String → List String
  | [] => []
  | w :: ws =>
    (ws.foldl
      (fun (acc : List String × String) word =>
        if acc.2.length + 1 + word.length ≤ width then
          (acc.1, acc.2 ++ " " ++ word)
        else
          (acc.1 ++ [acc.2], word))
      ([], w)).1
    ++ [(ws.foldl
      (fun (acc : List String × String) word =>
        if acc.2.length + 1 + word.length ≤ width then
          (acc.1, acc.2 ++ " " ++ word)
        else
          (acc.1 ++ [acc.2], word))
      ([], w)).2]

/-- `textwrap.fill(text, width)` with the default greedy strategy:
split on spaces, pack lines, join with newlines. -/
def textwrap_fill (text : String) (width : ℕ) : String :=
  String.intercalate "\n" (fillLines width (text.splitOn " "))

/-- Cover title `Paragraph` text (line 88). -/
def title : Block :=
  Block.paragraph "Jujutsu Kaisen: <br/><b>The Cursed Energy Handbook</b>"
    "cover_title"

/-- Cover subtitle (line 91). -/
def subtitle : Block :=
  Block.paragraph "A modern roleplaying sourcebook — A4 layout" "subtitle"

/-- Cover description paragraph (line 94). -/
def desc : Block :=
  Block.paragraph
    "A homebrew Jujutsu Kaisen tabletop system. Includes archetypes, cursed energy mechanics, domains, bestiary, sample characters, and a starter module."
    "normal"

/-- Stylized crest placeholder table (lines 99-103). -/
def crest_box : Block :=
  Block.table [[Cell.text " "]] [160 * mm] (some [40 * mm]) none
    [ { cmd := "BACKGROUND", start := (0, 0), stop := (-1, -1)
      , args := [StyleArg.color ACCENT_VIOLET] }
    , { cmd := "BOX", start := (0, 0), stop := (-1, -1)
      , args := [StyleArg.num (2 * pt), StyleArg.color ACCENT_CRIMSON] } ]

/-- The table-of-contents text block (lines 109-124), a Python
triple-quoted string including its leading and trailing newlines. -/
def toc_text : String :=
  "\n1. The World of Jujutsu<br/>\n2. Character Creation<br/>\n3. Cursed Energy System<br/>\n4. Archetypes (Classes)<br/>\n&nbsp;&nbsp;4.1 Cursed Technique User<br/>\n&nbsp;&nbsp;4.2 Cursed Tool Specialist<br/>\n&nbsp;&nbsp;4.3 Shikigami Summoner<br/>\n&nbsp;&nbsp;4.4 Reverse Curse User<br/>\n&nbsp;&nbsp;4.5 Domain Specialist<br/>\n&nbsp;&nbsp;4.6 Vessel / Contract User<br/>\n5. Combat & Techniques<br/>\n6. Bestiary<br/>\n7. Game Master Tools<br/>\nAppendix: Sample Characters, Starter Module, Index\n"

/-- Chapter 1 lore text (lines 130-132). -/
def lore : String :=
  "\nCurses are born from the negative emotions of humanity. Jujutsu Sorcerers manipulate cursed energy to exorcise these manifestations...\n"

/-- First column of the two-column lore block (line 137). -/
def col1 : Cell :=
  Cell.para
    (textwrap_fill
      "Curses: manifestations of fear, hatred, and malice. They range from harmless apparitions to Special Grade horrors that warp reality."
      80)
    "normal"

/-- Second column of the two-column lore block (line 138). -/
def col2 : Cell :=
  Cell.para
    (textwrap_fill
      "Society: Jujutsu schools like Tokyo and Kyoto teach sorcerers to control cursed energy, enforce binding vows, and police curses."
      80)
    "normal"

/-- The simulated two-column lore table (lines 139-143). -/
def loreTable : Block :=
  Block.table [[col1, col2]] [85 * mm, 85 * mm] none none
    [ { cmd := "VALIGN", start := (0, 0), stop := (-1, -1)
      , args := [StyleArg.str "TOP"] }
    , { cmd := "LEFTPADDING", start := (0, 0), stop := (-1, -1)
      , args := [StyleArg.num (6 * pt)] } ]

/-- `bg_table_data` (lines 150-156). -/
def bg_table_data : List (List Cell) :=
  [ [Cell.text "Student of Jujutsu Tech", Cell.text "Gain Arcana & Insight"]
  , [Cell.text "Cursed Tool Apprentice", Cell.text "Gain Athletics & Sleight of Hand"]
  , [Cell.text "Exorcist\x27s Lineage", Cell.text "Gain History & Religion"]
  , [Cell.text "Survivor of a Curse Attack", Cell.text "Gain Perception & Stealth"]
  , [Cell.text "Vessel / Pact-Bound", Cell.text "Gain Intimidation & Deception"] ]

/-- Backgrounds table (lines 157-165). -/
def bg_table : Block :=
  Block.table bg_table_data [60 * mm, 100 * mm] none (some "LEFT")
    [ { cmd := "BACKGROUND", start := (0, 0), stop := (-1, 0)
      , args := [StyleArg.color PAPER] }
    , { cmd := "TEXTCOLOR", start := (0, 0), stop := (-1, -1)
      , args := [StyleArg.color TEXT_LIGHT] }
    , { cmd := "GRID", start := (0, 0), stop := (-1, -1)
      , args := [StyleArg.num (pt / 4), StyleArg.color GRAY] }
    , { cmd := "FONTNAME", start := (0, 0), stop := (-1, -1)
      , args := [StyleArg.str "SourceSans"] }
    , { cmd := "FONTSIZE", start := (0, 0), stop := (-1, -1)
      , args := [StyleArg.num (10 * pt)] }
    , { cmd := "LEFTPADDING", start := (0, 0), stop := (-1, -1)
      , args := [StyleArg.num (6 * pt)] } ]

/-- CEP rules text (line 171). -/
def cep_text : String :=
  "CEP = 10 + Level + CON modifier + WIS modifier. CEP recovers fully on a long rest, and half on a short rest. Players may convert HP to CEP at the rate 1 HP → 1 CEP."

/-- Cursed Technique User description (lines 178-180). -/
def ctu_desc : String :=
  "\nSpecializes in a unique cursed technique. Choose a Signature Technique at Level 1 and evolve it as you level.\n"

/-- `ctu_table_data` (lines 183-188). -/
def ctu_table_data : List (List Cell) :=
  [ [Cell.text "Level", Cell.text "Feature", Cell.text "CEP Cost"]
  , [Cell.text "1", Cell.text "Signature Technique (choose one)", Cell.text "Varies (3–5)"]
  , [Cell.text "5", Cell.text "Technique Extension", Cell.text "+2 CEP"]
  , [Cell.text "10", Cell.text "Domain Expansion (unstable)", Cell.text "10 CEP"]
  , [Cell.text "15", Cell.text "Domain Perfection", Cell.text "n/a"]
  , [Cell.text "20", Cell.text "True Technique Evolution", Cell.text "n/a"] ]

/-- Level-feature table (lines 189-196). -/
def ctu_table : Block :=
  Block.table ctu_table_data [25 * mm, 100 * mm, 30 * mm] none none
    [ { cmd := "BACKGROUND", start := (0, 0), stop := (-1, 0)
      , args := [StyleArg.color ACCENT_VIOLET] }
    , { cmd := "TEXTCOLOR", start := (0, 0), stop := (-1, -1)
      , args := [StyleArg.color TEXT_LIGHT] }
    , { cmd := "GRID", start := (0, 0), stop := (-1, -1)
      , args := [StyleArg.num (pt / 4), StyleArg.color GRAY] }
    , { cmd := "FONTNAME", start := (0, 0), stop := (-1, -1)
      , args := [StyleArg.str "SourceSans"] }
    , { cmd := "FONTSIZE", start := (0, 0), stop := (-1, -1)
      , args := [StyleArg.num (10 * pt)] } ]

/-- `tech_table_data` (lines 202-208). -/
def tech_table_data : List (List Cell) :=
  [ [Cell.text "Technique", Cell.text "Effect", Cell.text "Sample Flavor"]
  , [Cell.text "Cursed Speech", Cell.text "Command/paralyze (WIS save)", Cell.text "Inumaki-style"]
  , [Cell.text "Ratio", Cell.text "Strike weak points for increased damage", Cell.text "Nanami-style"]
  , [Cell.text "Boogie Woogie", Cell.text "Swap positions of entities", Cell.text "Todo-style"]
  , [Cell.text "Shadow Binding", Cell.text "Control enemy movement via shadows", Cell.text "Megumi-inspired"] ]

/-- Example signature techniques table (lines 209-216). -/
def tech_table : Block :=
  Block.table tech_table_data [50 * mm, 70 * mm, 35 * mm] none none
    [ { cmd := "BACKGROUND", start := (0, 0), stop := (-1, 0)
      , args := [StyleArg.color ACCENT_CRIMSON] }
    , { cmd := "TEXTCOLOR", start := (0, 0), stop := (-1, -1)
      , args := [StyleArg.color TEXT_LIGHT] }
    , { cmd := "GRID", start := (0, 0), stop := (-1, -1)
      , args := [StyleArg.num (pt / 4), StyleArg.color GRAY] }
    , { cmd := "FONTNAME", start := (0, 0), stop := (-1, -1)
      , args := [StyleArg.str "SourceSans"] }
    , { cmd := "FONTSIZE", start := (0, 0), stop := (-1, -1)
      , args := [StyleArg.num (9 * pt)] } ]

/-- Yuji sample-character text (lines 223-231). -/
def yuji_text : String :=
  "\nArchetype: Vessel / Contract User\nLevel: 3\nCEP: 10 + 3 + CON_mod + WIS_mod = (example)\nBackground: Survivor of a curse attack\nAbilities: Enhanced physicals, fast healer, can host an inner curse (Sukuna analogue)\nEquipment: None (relies on body and cursed energy)\nPlaystyle notes: Close-quarters combatant with burst CEP usage. \n"

/-- Gojo template text (lines 236-241). -/
def gojo_text : String :=
  "\nArchetype: Domain Specialist / Unique Technique User\nLevel: Legendary (GM only)\nSignature: Infinity-like barrier (flavored)\nNotes: Use as high-level NPC with Domain Perfection and Reality Rewrite.\n"

/-- Starter-module summary text (lines 248-250). -/
def adv_text : String :=
  "\nThe players are new recruits assigned to investigate a rural shrine where villagers have been disappearing...\n"

/-- Bestiary sample text (lines 258-261). -/
def hc_text : String :=
  "\nHP: 12 | Damage: 1d6 | Abilities: Haunting Wail (debuff), Possess small objects.\nTactics: Harass and separate party members.\n"

/-- Index placeholder text (line 267). -/
def index_text : String :=
  "This index is a placeholder. After final edits, update page numbers and index entries."

/-- The complete ordered content sequence `elements` (lines 84-268), with
every `append` in source order.  Note line 95 appends a spacer before the
`desc` paragraph constructed on line 94. -/
def elements : List Block :=
  [ Block.spacer (1 * pt) (40 * mm)
  , title
  , Block.spacer (1 * pt) (10 * mm)
  , subtitle
  , Block.spacer (1 * pt) (8 * mm)
  , Block.spacer (1 * pt) (12 * mm)
  , desc
  , Block.spacer (1 * pt) (20 * mm)
  , crest_box
  , Block.pageBreak
  , Block.paragraph "Table of Contents" "h1"
  , Block.paragraph toc_text "toc"
  , Block.pageBreak
  , Block.paragraph "Chapter 1: The World of Jujutsu" "h1"
  , Block.paragraph lore "normal"
  , Block.spacer (1 * pt) (6 * mm)
  , loreTable
  , Block.pageBreak
  , Block.paragraph "Chapter 2: Character Creation" "h1"
  , Block.paragraph "Backgrounds" "h2"
  , bg_table
  , Block.spacer (1 * pt) (6 * mm)
  , Block.paragraph "Cursed Energy Points (CEP)" "h2"
  , Block.paragraph cep_text "normal"
  , Block.pageBreak
  , Block.paragraph "Chapter 4: Archetypes (Classes)" "h1"
  , Block.paragraph "4.1 Cursed Technique User" "h2"
  , Block.paragraph ctu_desc "normal"
  , ctu_table
  , Block.spacer (1 * pt) (6 * mm)
  , Block.paragraph "Example Signature Techniques" "h2"
  , tech_table
  , Block.pageBreak
  , Block.paragraph "Appendix: Sample Characters" "h1"
  , Block.paragraph "<b>Yuji Itadori (Sample PC)</b>" "h2"
  , Block.paragraph yuji_text "normal"
  , Block.spacer (1 * pt) (6 * mm)
  , Block.paragraph "<b>Satoru Gojo (NPC/Legendary Template)</b>" "h2"
  , Block.paragraph gojo_text "normal"
  , Block.pageBreak
  , Block.paragraph "Starter Module: The Haunting of Higan Shrine" "h1"
  , Block.paragraph "Adventure Summary" "h2"
  , Block.paragraph adv_text "normal"
  , Block.spacer (1 * pt) (6 * mm)
  , Block.pageBreak
  , Block.paragraph "Bestiary (Sample Entries)" "h1"
  , Block.paragraph "Grade 4: Hollowchild" "h2"
  , Block.paragraph hc_text "normal"
  , Block.pageBreak
  , Block.paragraph "Index" "h1"
  , Block.paragraph index_text "normal" ]

/-- The three `pdfmetrics.registerFont(TTFont(...))` calls inside the
`try` block (lines 30-33), in source order: name and font-file path. -/
def fontRegistrations : List (String × String) :=
  [ ("SourceSans", "/usr/share/fonts/truetype/dejavu/DejaVuSans.ttf")
  , ("SourceSans-Bold", "/usr/share/fonts/truetype/dejavu/DejaVuSans-Bold.ttf")
  , ("SourceSerif", "/usr/share/fonts/truetype/dejavu/DejaVuSerif.ttf") ]

/-- Execute the `try` body: register each font in order; the first missing
font file raises, aborting the remaining registrations.  The bare
`except: pass` swallows the exception, so the result is simply the list of
fonts registered before the failure. -/
def registerFontsGo (fontFileExists : String → Bool) :
    List (String × String) → List String
  | [] => []
  | (name, path) :: rest =>
    if fontFileExists path then name :: registerFontsGo fontFileExists rest
    else []

/-- Font names registered by the `try/except` block (lines 30-36), given
which font files exist on the filesystem. -/
def registerFonts (fontFileExists : String → Bool) : List String :=
  registerFontsGo fontFileExists fontRegistrations

/-- The engine's builtin standard Type1 fonts.  Modelled from the layout
engine's documented font machinery: these names always resolve without
registration; any other unregistered name is an error. -/
def standardFonts : List String :=
  [ "Courier", "Courier-Bold", "Courier-BoldOblique", "Courier-Oblique"
  , "Helvetica", "Helvetica-Bold", "Helvetica-BoldOblique"
  , "Helvetica-Oblique", "Symbol", "Times-Bold", "Times-BoldItalic"
  , "Times-Italic", "Times-Roman", "ZapfDingbats" ]

/-- Whether a font name resolves: it is registered or builtin.  Modelled
from the engine's `getFont`, which raises a key error otherwise; note the
engine has no silent fallback for unknown font names. -/
def resolveFont (registered : List String) (name : String) : Bool :=
  registered.contains name || standardFonts.contains name

/-- Font names a cell needs when rendered: an embedded paragraph uses its
style's font. -/
def cellFonts : Cell → List String
  | Cell.text _ => []
  | Cell.para _ sid => ((lookupStyle sid).map (fun ps => [ps.fontName])).getD []

/-- Font names requested by `FONTNAME` commands of a table style. -/
def tableStyleFonts (cmds : List TableStyleCmd) : List String :=
  cmds.filterMap (fun c =>
    if c.cmd = "FONTNAME" then
      match c.args with
      | [StyleArg.str f] => some f
      | _ => none
    else none)

/-- All font names a block needs when the engine renders it. -/
def blockFonts : Block → List String
  | Block.spacer _ _ => []
  | Block.pageBreak => []
  | Block.paragraph _ sid =>
      ((lookupStyle sid).map (fun ps => [ps.fontName])).getD []
  | Block.table rows _ _ _ style =>
      tableStyleFonts style ++ ((rows.map (fun r => r.map cellFonts)).flatten).flatten

/-- Errors the build can raise: an unregistered font name, or a table
wider than the frame (the engine's layout error). -/
inductive BuildError where
  | unknownFont (name : String)
  | tableTooWide (widths : List ℤ)
deriving DecidableEq

/-- Check one flowable as the engine consumes it: resolve its fonts, then
(for a table with fixed column widths) check that the widths fit inside
the frame width.  Modelled from the engine's per-flowable wrap step, which
raises on the first unresolvable font or over-wide table. -/
def checkBlock (reg : List String) (b : Block) : Option BuildError :=
  match (blockFonts b).find? (fun f => ! resolveFont reg f) with
  | some f => some (BuildError.unknownFont f)
  | none =>
    match b with
    | Block.table _ w _ _ _ =>
      if usableWidth < w.sum then some (BuildError.tableTooWide w) else none
    | _ => none

/-- First error the build hits.  The decorator runs at first-page begin,
before any flowable, so its `setFont("SourceSans", 9)` is resolved first;
then the flowables are checked in document order. -/
def firstBuildError (reg : List String) (bs : List Block) :
    Option BuildError :=
  if ! resolveFont reg "SourceSans" then
    some (BuildError.unknownFont "SourceSans")
  else bs.findSome? (checkBlock reg)

/-- A flowable as the pagination pass sees it: an opaque item of some
height, or an explicit page-break marker. -/
inductive Flowable where
  | item (height : ℤ)
  | brk
deriving DecidableEq

/-- Pagination state: current 1-based page, remaining vertical space on
it, and how many automatic/explicit page breaks have happened. -/
structure LayoutState where
  page : ℕ
  avail : ℤ
  autoBreaks : ℕ
  pageBreaks : ℕ
deriving DecidableEq

/-- One pagination step.  Modelled from the spec's driver contract: an
item that fits the remaining space stays on the current page; one that
does not triggers an automatic page break; an explicit `PageBreak` always
starts a fresh page. -/
def layoutStep (fH : ℤ) (s : LayoutState) : Flowable → LayoutState
  | Flowable.brk =>
    { page := s.page + 1, avail := fH, autoBreaks := s.autoBreaks
    , pageBreaks := s.pageBreaks + 1 }
  | Flowable.item h =>
    if h ≤ s.avail then
      { page := s.page, avail := s.avail - h, autoBreaks := s.autoBreaks
      , pageBreaks := s.pageBreaks }
    else
      { page := s.page + 1, avail := fH - h, autoBreaks := s.autoBreaks + 1
      , pageBreaks := s.pageBreaks }

/-- Run the pagination pass over a flowable sequence. -/
def layoutRun (fH : ℤ) (s : LayoutState) (fs : List Flowable) : LayoutState :=
  fs.foldl (layoutStep fH) s

/-- The page each flowable lands on: an item is placed on the page the
step moves it to; a break marker is recorded on the page it terminates. -/
def layoutPages (fH : ℤ) (s : LayoutState) : List Flowable → List ℕ
  | [] => []
  | f :: fs =>
    (match f with
     | Flowable.brk => s.page
     | Flowable.item h => (layoutStep fH s (Flowable.item h)).page)
      :: layoutPages fH (layoutStep fH s f) fs

/-- Pagination starts on page 1 with a full frame. -/
def initState (fH : ℤ) : LayoutState :=
  { page := 1, avail := fH, autoBreaks := 0, pageBreaks := 0 }

/-- The flowable a block contributes: a spacer declares its height; a
paragraph or table has an engine-computed height, supplied here by the
height assignment `h` on the block's index; a `PageBreak` is a marker. -/
def flowOf (h : ℕ → ℤ) (i : ℕ) (b : Block) : Flowable :=
  match b with
  | Block.pageBreak => Flowable.brk
  | Block.spacer _ ht => Flowable.item ht
  | _ => Flowable.item (h i)

/-- The flowable sequence of a block list under a height assignment. -/
def flowsOf (h : ℕ → ℤ) (bs : List Block) : List Flowable :=
  (bs.enum).map (fun p => flowOf h p.1 p.2)

/-- Number of pages the build produces: the page the pagination pass ends
on (the engine flushes the final page when the build completes). -/
def pageCount (h : ℕ → ℤ) (bs : List Block) : ℕ :=
  (layoutRun frameHeight (initState frameHeight) (flowsOf h bs)).page

/-- Decoration pass from canvas counter `c`: the engine invokes the page
callback once per physical page, and `getPageNumber` increments by one
after each page is shipped. -/
def decorateFrom (c : ℕ) : ℕ → List (List DrawCmd)
  | 0 => []
  | n + 1 => on_page c :: decorateFrom (c + 1) n

/-- Decorations of all pages of an `n`-page document; the canvas counter
starts at 1. -/
def decoratePages (n : ℕ) : List (List DrawCmd) :=
  decorateFrom 1 n

/-- The produced artifact: page count, the decoration commands of every
page, the rendered content sequence, and the engine-generated timestamp
metadata (creation/modification dates and the time-derived document id). -/
structure PdfFile where
  pageCount : ℕ
  pageDecorations : List (List DrawCmd)
  content : List Block
  timestampMeta : ℤ
deriving DecidableEq

/-- `doc.build(elements, onFirstPage=on_page, onLaterPages=on_page)`
(line 279), modelled from the spec's driver contract: register fonts via
the `try/except` block, stop with an error if the decorator or any
flowable fails to resolve (unknown font or over-wide table) — in which
case nothing is written — otherwise paginate, decorate every page, and
write the artifact. -/
def buildDoc (bs : List Block) (fontFileExists : String → Bool)
    (h : ℕ → ℤ) (t : ℤ) : Except BuildError PdfFile :=
  let reg := registerFonts fontFileExists
  match firstBuildError reg bs with
  | some e => Except.error e
  | none =>
    Except.ok
      { pageCount := pageCount h bs
      , pageDecorations := decoratePages (pageCount h bs)
      , content := bs
      , timestampMeta := t }

/-- The file on disk after the run: the engine writes the output only when
the build completes, so an error leaves nothing. -/
def outputFile : Except BuildError PdfFile → Option PdfFile
  | Except.ok f => some f
  | Except.error _ => none

/-- Whether the build completed. -/
def buildSucceeds : Except BuildError PdfFile → Bool
  | Except.ok _ => true
  | Except.error _ => false

/-- Everything in the artifact except the engine-generated timestamp
metadata. -/
def withoutTimestampMeta (f : PdfFile) :
    ℕ × List (List DrawCmd) × List Block :=
  (f.pageCount, f.pageDecorations, f.content)

/-- A lifecycle event of one content entity during the script's single
construction pass: Python object construction, in-place mutation
(`setStyle`), or insertion into `elements` (`append`). -/
inductive Ev where
  | create (id : String)
  | mutate (id : String)
  | append (id : String)
deriving DecidableEq

/-- The script's construction timeline (lines 84-268), statement by
statement in execution order.  Entities named in the source keep their
variable names; anonymous inline constructions get descriptive ids.
`col1`/`col2` are constructed as table cells and never appended
themselves; each `Table` followed by `setStyle` contributes a `create`,
then a `mutate`, then an `append`. -/
def scriptTrace : List Ev :=
  [ Ev.create "cover_spacer_1", Ev.append "cover_spacer_1"
  , Ev.create "title", Ev.append "title"
  , Ev.create "cover_spacer_2", Ev.append "cover_spacer_2"
  , Ev.create "subtitle", Ev.append "subtitle"
  , Ev.create "cover_spacer_3", Ev.append "cover_spacer_3"
  , Ev.create "desc"
  , Ev.create "cover_spacer_4", Ev.append "cover_spacer_4"
  , Ev.append "desc"
  , Ev.create "cover_spacer_5", Ev.append "cover_spacer_5"
  , Ev.create "crest_box", Ev.mutate "crest_box", Ev.append "crest_box"
  , Ev.create "pagebreak_1", Ev.append "pagebreak_1"
  , Ev.create "toc_heading", Ev.append "toc_heading"
  , Ev.create "toc_para", Ev.append "toc_para"
  , Ev.create "pagebreak_2", Ev.append "pagebreak_2"
  , Ev.create "ch1_heading", Ev.append "ch1_heading"
  , Ev.create "lore_para", Ev.append "lore_para"
  , Ev.create "ch1_spacer", Ev.append "ch1_spacer"
  , Ev.create "col1", Ev.create "col2"
  , Ev.create "table", Ev.mutate "table", Ev.append "table"
  , Ev.create "pagebreak_3", Ev.append "pagebreak_3"
  , Ev.create "ch2_heading", Ev.append "ch2_heading"
  , Ev.create "backgrounds_heading", Ev.append "backgrounds_heading"
  , Ev.create "bg_table", Ev.mutate "bg_table", Ev.append "bg_table"
  , Ev.create "ch2_spacer", Ev.append "ch2_spacer"
  , Ev.create "cep_heading", Ev.append "cep_heading"
  , Ev.create "cep_para", Ev.append "cep_para"
  , Ev.create "pagebreak_4", Ev.append "pagebreak_4"
  , Ev.create "ch4_heading", Ev.append "ch4_heading"
  , Ev.create "ctu_heading", Ev.append "ctu_heading"
  , Ev.create "ctu_desc_para", Ev.append "ctu_desc_para"
  , Ev.create "ctu_table", Ev.mutate "ctu_table", Ev.append "ctu_table"
  , Ev.create "ch4_spacer", Ev.append "ch4_spacer"
  , Ev.create "tech_heading", Ev.append "tech_heading"
  , Ev.create "tech_table", Ev.mutate "tech_table", Ev.append "tech_table"
  , Ev.create "pagebreak_5", Ev.append "pagebreak_5"
  , Ev.create "appendix_heading", Ev.append "appendix_heading"
  , Ev.create "yuji_heading", Ev.append "yuji_heading"
  , Ev.create "yuji_para", Ev.append "yuji_para"
  , Ev.create "appendix_spacer", Ev.append "appendix_spacer"
  , Ev.create "gojo_heading", Ev.append "gojo_heading"
  , Ev.create "gojo_para", Ev.append "gojo_para"
  , Ev.create "pagebreak_6", Ev.append "pagebreak_6"
  , Ev.create "module_heading", Ev.append "module_heading"
  , Ev.create "adv_heading", Ev.append "adv_heading"
  , Ev.create "adv_para", Ev.append "adv_para"
  , Ev.create "module_spacer", Ev.append "module_spacer"
  , Ev.create "pagebreak_7", Ev.append "pagebreak_7"
  , Ev.create "bestiary_heading", Ev.append "bestiary_heading"
  , Ev.create "hc_heading", Ev.append "hc_heading"
  , Ev.create "hc_para", Ev.append "hc_para"
  , Ev.create "pagebreak_8", Ev.append "pagebreak_8"
  , Ev.create "index_heading", Ev.append "index_heading"
  , Ev.create "index_para", Ev.append "index_para" ]

/-- Whether an event mutates the given entity. -/
def isMutateOf (id : String) : Ev → Bool
  | Ev.mutate i => i = id
  | _ => false

/-- Entity `id` is mutated at some point strictly after a creation of
`id` in the trace. -/
def mutatedAfterCreation (tr : List Ev) (id : String) : Bool :=
  match tr with
  | [] => false
  | Ev.create i :: rest =>
    (decide (i = id) && rest.any (isMutateOf id))
      || mutatedAfterCreation rest id
  | _ :: rest => mutatedAfterCreation rest id

/-- Ids of all entities the trace constructs. -/
def traceIds (tr : List Ev) : List String :=
  tr.filterMap (fun e =>
    match e with
    | Ev.create i => some i
    | _ => none)

/-- The spec's stated invariant: no entity is mutated after its creation. -/
def immutableOnceConstructed (tr : List Ev) : Bool :=
  (traceIds tr).all (fun id => ! mutatedAfterCreation tr id)

/-- The weaker invariant the code maintains: once an entity has been
appended to the content sequence, it is never mutated afterwards. -/
def noMutationAfterAppend (tr : List Ev) : Bool :=
  match tr with
  | [] => true
  | Ev.append i :: rest =>
    (! rest.any (isMutateOf i)) && noMutationAfterAppend rest
  | _ :: rest => noMutationAfterAppend rest

/-- Sum of a table block's declared column widths, when the block is a
table. -/
def tableWidthSum : Block → Option ℤ
  | Block.table _ w _ _ _ => some w.sum
  | _ => none

/-- Every table in a block list declares column widths totalling at most
the frame width. -/
def tablesFit (bs : List Block) : Bool :=
  bs.all (fun b =>
    match tableWidthSum b with
    | some w => decide (w ≤ usableWidth)
    | none => true)

/-- Some block is a table wider than the frame. -/
def hasOverwideTable (bs : List Block) : Bool :=
  bs.any (fun b =>
    match tableWidthSum b with
    | some w => decide (usableWidth < w)
    | none => false)

/-- Erase the text payload of a command, leaving only its geometry, pen
configuration and kind. -/
def eraseText : DrawCmd → DrawCmd
  | DrawCmd.rightString x y f s c _ => DrawCmd.rightString x y f s c ""
  | c => c

/-- The page-callback configuration handed to `doc.build` on line 279:
`onFirstPage=on_page, onLaterPages=on_page`. -/
structure BuildConfig where
  onFirstPage : ℕ → List DrawCmd
  onLaterPages : ℕ → List DrawCmd

/-- The callbacks the script passes to the engine. -/
def buildConfig : BuildConfig :=
  { onFirstPage := on_page, onLaterPages := on_page }

/-- The page-number stamps among a page's decoration commands. -/
def stampsOf (cmds : List DrawCmd) : List DrawCmd :=
  cmds.filter (fun c =>
    match c with
    | DrawCmd.rightString _ _ _ _ _ _ => true
    | _ => false)

/-- Height assignment for concrete runs: every engine-measured flowable
gets height zero. -/
def zeroHeights : ℕ → ℤ := fun _ => 0

/-- A filesystem on which every declared font file exists (the typical
system the script comments assume). -/
def allFontsPresent : String → Bool := fun _ => true

/-- A filesystem on which no declared font file exists. -/
def noFontsPresent : String → Bool := fun _ => false

/-- A hypothetical over-wide table block: one 200mm column, wider than
the 170mm frame. -/
def wideTable : Block :=
  Block.table [[Cell.text " "]] [200 * mm] none none []

/-- The flowables of the cover page: the nine elements before the first
`PageBreak` marker (at index 9). -/
def coverFlows : List Flowable := (flowsOf zeroHeights elements).take 9

/-- The flowables after the first `PageBreak` marker. -/
def afterCoverFlows : List Flowable := (flowsOf zeroHeights elements).drop 10

/-- C9: every table block declared in this document has column widths
summing to at most the usable width (A4 210mm minus 20mm margins on each
side, i.e. 170mm), so the over-wide-table layout error cannot fire on
this fixed content. -/
theorem all_tables_fit_usable_width : tablesFit elements = true := by decide

/-- C10: the first page and every later page are decorated by the same
callback (`onFirstPage=on_page, onLaterPages=on_page`), and the callback
paints the same background, accent lines and stamp geometry on every
page — the decorations of any two pages agree once the stamped text is
erased. -/
theorem uniform_page_decoration :
    buildConfig.onFirstPage = buildConfig.onLaterPages ∧
    ∀ j k : ℕ,
      (buildConfig.onFirstPage j).map eraseText
        = (buildConfig.onFirstPage k).map eraseText := by
  refine ⟨rfl, fun j k => ?_⟩
  simp [buildConfig, on_page, header_footer, eraseText]

/-- C2: the decorator paints the full-page background as its first mark
(and the engine invokes the decorator before flowing content, so the
background sits under the content), while all its remaining furniture —
the two accent lines and the page-number stamp — lies entirely outside
the vertical band the content frame occupies; flowed content therefore
never covers the furniture. -/
theorem decorator_layering_guarantee (k : ℕ) :
    (on_page k).head?
      = some (DrawCmd.rect 0 0 PAGE_WIDTH PAGE_HEIGHT true false OBSIDIAN) ∧
    (header_footer k).all missesFrame = true := by
  exact ⟨rfl, rfl⟩

/-- C3 fails as stated: `crest_box` (and each later table) is mutated by
`setStyle` after its construction, so the trace violates
"no entity is mutated after its creation". -/
theorem immutability_counterexample :
    immutableOnceConstructed scriptTrace = false := by decide

/-- C3, amended: blocks are configured (tables receive `setStyle`)
between construction and insertion, but once appended to the content
sequence no entity is ever mutated again. -/
theorem no_mutation_after_append :
    noMutationAfterAppend scriptTrace = true := by decide

/-- C7: the build consumes no runtime input — for the fixed content
sequence and geometry, two runs can differ only in the engine-generated
timestamp metadata; everything else in the artifact is identical. -/
theorem build_deterministic_modulo_timestamp
    (fe : String → Bool) (h : ℕ → ℤ) (t1 t2 : ℤ) :
    (buildDoc elements fe h t1).map withoutTimestampMeta
      = (buildDoc elements fe h t2).map withoutTimestampMeta := by
  cases herr : firstBuildError (registerFonts fe) elements <;>
    simp [buildDoc, herr, withoutTimestampMeta, Except.map]

/-- With no font files on disk, the decorator's font cannot resolve:
registration was silently skipped and nothing maps `SourceSans` to a
default, so the build stops at once. -/
theorem firstBuildError_no_fonts :
    firstBuildError (registerFonts noFontsPresent) elements
      = some (BuildError.unknownFont "SourceSans") := by decide

/-- With all font files on disk every font the document uses resolves. -/
theorem firstBuildError_all_fonts :
    firstBuildError (registerFonts allFontsPresent) elements = none := by
  decide

/-- C1 (evaluation at the failing input): when the declared font asset
paths do not exist, the `try/except` block swallows the registration
failure but the styles still name the never-registered fonts, so the
build aborts with an unknown-font error and writes nothing — while the
same build with the assets present succeeds.  The code therefore does
not degrade to a fallback font as its own comment and the spec state. -/
theorem build_fails_when_font_assets_missing (h : ℕ → ℤ) (t : ℤ) :
    buildDoc elements noFontsPresent h t
      = Except.error (BuildError.unknownFont "SourceSans") ∧
    outputFile (buildDoc elements noFontsPresent h t) = none ∧
    buildSucceeds (buildDoc elements allFontsPresent h t) = true := by
  refine ⟨?_, ?_, ?_⟩ <;>
    simp [buildDoc, firstBuildError_no_fonts, firstBuildError_all_fonts,
      outputFile, buildSucceeds]

/-- If every element of a list satisfies `p`, searching it for a
`p`-violation finds nothing. -/
theorem find?_eq_none_of_all {α : Type} (l : List α) (p : α → Bool)
    (h : l.all p = true) : l.find? (fun x => ! p x) = none := by
  rw [List.find?_eq_none]
  intro x hx
  simp [List.all_eq_true.mp h x hx]

/-- If every block's fonts resolve and some block is an over-wide table,
the engine's per-flowable check trips on an over-wide table. -/
theorem findSome?_checkBlock_overwide (reg : List String) :
    ∀ bs : List Block,
      bs.all (fun b => (blockFonts b).all (resolveFont reg)) = true →
      hasOverwideTable bs = true →
      ∃ w, bs.findSome? (checkBlock reg)
        = some (BuildError.tableTooWide w) := by
  intro bs
  induction bs with
  | nil => intro _ hw; simp [hasOverwideTable] at hw
  | cons b bs ih =>
    intro hf hw
    rw [List.all_cons, Bool.and_eq_true] at hf
    have hnone := find?_eq_none_of_all _ _ hf.1
    cases b with
    | table rows w rh ha st =>
      by_cases hlt : usableWidth < w.sum
      · exact ⟨w, by simp [List.findSome?_cons, checkBlock, hnone, hlt]⟩
      · have hw' : hasOverwideTable bs = true := by
          simpa [hasOverwideTable, tableWidthSum, hlt] using hw
        obtain ⟨w', hw''⟩ := ih hf.2 hw'
        exact ⟨w', by simp [List.findSome?_cons, checkBlock, hnone, hlt, hw'']⟩
    | spacer wd ht =>
      have hw' : hasOverwideTable bs = true := by
        simpa [hasOverwideTable, tableWidthSum] using hw
      obtain ⟨w', hw''⟩ := ih hf.2 hw'
      exact ⟨w', by simp [List.findSome?_cons, checkBlock, hnone, hw'']⟩
    | paragraph tx sid =>
      have hw' : hasOverwideTable bs = true := by
        simpa [hasOverwideTable, tableWidthSum] using hw
      obtain ⟨w', hw''⟩ := ih hf.2 hw'
      exact ⟨w', by simp [List.findSome?_cons, checkBlock, hnone, hw'']⟩
    | pageBreak =>
      have hw' : hasOverwideTable bs = true := by
        simpa [hasOverwideTable, tableWidthSum] using hw
      obtain ⟨w', hw''⟩ := ih hf.2 hw'
      exact ⟨w', by simp [List.findSome?_cons, checkBlock, hnone, hw'']⟩

/-- C4: a content sequence containing a table whose declared column
widths exceed the usable width is rejected by the build with the layout
error, and no output file is written — the error happens before the
engine saves anything to disk. -/
theorem overwide_table_rejected_before_output
    (bs : List Block) (fe : String → Bool) (h : ℕ → ℤ) (t : ℤ)
    (hdec : resolveFont (registerFonts fe) "SourceSans" = true)
    (hfonts : bs.all
      (fun b => (blockFonts b).all (resolveFont (registerFonts fe))) = true)
    (hwide : hasOverwideTable bs = true) :
    (∃ w, buildDoc bs fe h t = Except.error (BuildError.tableTooWide w)) ∧
    outputFile (buildDoc bs fe h t) = none := by
  obtain ⟨w, hw⟩ :=
    findSome?_checkBlock_overwide (registerFonts fe) bs hfonts hwide
  have hfe : firstBuildError (registerFonts fe) bs
      = some (BuildError.tableTooWide w) := by
    simp [firstBuildError, hdec, hw]
  exact ⟨⟨w, by simp [buildDoc, hfe]⟩, by simp [buildDoc, hfe, outputFile]⟩

/-- Witness for `overwide_table_rejected_before_output` at a concrete
input: a one-table document with a 200mm column on a system with all
fonts present. -/
theorem overwide_table_rejected_before_output_witness :
    resolveFont (registerFonts allFontsPresent) "SourceSans" = true ∧
    [wideTable].all (fun b =>
      (blockFonts b).all (resolveFont (registerFonts allFontsPresent)))
      = true ∧
    hasOverwideTable [wideTable] = true ∧
    ((∃ w, buildDoc [wideTable] allFontsPresent zeroHeights 0
        = Except.error (BuildError.tableTooWide w)) ∧
      outputFile (buildDoc [wideTable] allFontsPresent zeroHeights 0)
        = none) :=
  ⟨by decide, by decide, by decide,
    overwide_table_rejected_before_output [wideTable] allFontsPresent
      zeroHeights 0 (by decide) (by decide) (by decide)⟩

/-- Pagination processes a sequence head-first. -/
theorem layoutRun_cons (fH : ℤ) (s : LayoutState) (f : Flowable)
    (fs : List Flowable) :
    layoutRun fH s (f :: fs) = layoutRun fH (layoutStep fH s f) fs := rfl

/-- Every break of either kind advances the page counter by exactly one,
so the counter always equals the starting page plus the breaks taken. -/
theorem layoutRun_break_count (fH : ℤ) :
    ∀ (fs : List Flowable) (s : LayoutState),
      (layoutRun fH s fs).page + s.autoBreaks + s.pageBreaks
        = s.page + (layoutRun fH s fs).autoBreaks
            + (layoutRun fH s fs).pageBreaks := by
  intro fs
  induction fs with
  | nil => intro s; rfl
  | cons f fs ih =>
    intro s
    have h2 := ih (layoutStep fH s f)
    rw [layoutRun_cons]
    cases f with
    | brk => simp [layoutStep] at h2 ⊢; omega
    | item ht =>
      by_cases hle : ht ≤ s.avail
      · simp [layoutStep, hle] at h2 ⊢; omega
      · simp [layoutStep, hle] at h2 ⊢; omega

/-- C8: for any heights the engine assigns to the document's flowables,
the produced page count equals the automatic page breaks induced by
overflow, plus the explicit `PageBreak` markers taken, plus one. -/
theorem page_count_formula (h : ℕ → ℤ) :
    pageCount h elements
      = (layoutRun frameHeight (initState frameHeight)
            (flowsOf h elements)).autoBreaks
        + (layoutRun frameHeight (initState frameHeight)
            (flowsOf h elements)).pageBreaks
        + 1 := by
  have h2 := layoutRun_break_count frameHeight (flowsOf h elements)
    (initState frameHeight)
  simp only [pageCount, initState] at h2 ⊢
  omega

/-- A pagination step never decreases the page counter. -/
theorem page_le_layoutStep (fH : ℤ) (s : LayoutState) (f : Flowable) :
    s.page ≤ (layoutStep fH s f).page := by
  cases f with
  | brk => simp [layoutStep]
  | item ht => by_cases hle : ht ≤ s.avail <;> simp [layoutStep, hle]

/-- The page counter is monotone along the whole pagination run. -/
theorem page_le_layoutRun (fH : ℤ) :
    ∀ (fs : List Flowable) (s : LayoutState),
      s.page ≤ (layoutRun fH s fs).page := by
  intro fs
  induction fs with
  | nil => intro s; exact le_refl _
  | cons f fs ih =>
    intro s
    rw [layoutRun_cons]
    exact le_trans (page_le_layoutStep fH s f) (ih (layoutStep fH s f))

/-- Placements of a concatenated sequence: first segment's placements,
then the second segment's from the state the first one reaches. -/
theorem layoutPages_append (fH : ℤ) :
    ∀ (xs ys : List Flowable) (s : LayoutState),
      layoutPages fH s (xs ++ ys)
        = layoutPages fH s xs ++ layoutPages fH (layoutRun fH s xs) ys := by
  intro xs
  induction xs with
  | nil => intro ys s; rfl
  | cons f xs ih =>
    intro ys s
    simp only [List.cons_append, layoutPages, List.cons.injEq, true_and,
      List.append_eq]
    rw [ih ys (layoutStep fH s f)]
    rfl

/-- Every page recorded from state `s` onwards is at least `s.page`. -/
theorem mem_layoutPages_ge (fH : ℤ) :
    ∀ (fs : List Flowable) (s : LayoutState) (p : ℕ),
      p ∈ layoutPages fH s fs → s.page ≤ p := by
  intro fs
  induction fs with
  | nil => intro s p hp; simp [layoutPages] at hp
  | cons f fs ih =>
    intro s p hp
    cases f with
    | brk =>
      simp only [layoutPages, List.mem_cons] at hp
      rcases hp with hp | hp
      · omega
      · exact le_trans (page_le_layoutStep fH s Flowable.brk)
          (ih (layoutStep fH s Flowable.brk) p hp)
    | item ht =>
      simp only [layoutPages, List.mem_cons] at hp
      rcases hp with hp | hp
      · subst hp; exact page_le_layoutStep fH s (Flowable.item ht)
      · exact le_trans (page_le_layoutStep fH s (Flowable.item ht))
          (ih (layoutStep fH s (Flowable.item ht)) p hp)

/-- Every page recorded before the run ends is at most the final page. -/
theorem mem_layoutPages_le (fH : ℤ) :
    ∀ (fs : List Flowable) (s : LayoutState) (p : ℕ),
      p ∈ layoutPages fH s fs → p ≤ (layoutRun fH s fs).page := by
  intro fs
  induction fs with
  | nil => intro s p hp; simp [layoutPages] at hp
  | cons f fs ih =>
    intro s p hp
    rw [layoutRun_cons]
    cases f with
    | brk =>
      simp only [layoutPages, List.mem_cons] at hp
      rcases hp with hp | hp
      · subst hp
        exact le_trans (page_le_layoutStep fH s Flowable.brk)
          (page_le_layoutRun fH fs (layoutStep fH s Flowable.brk))
      · exact ih (layoutStep fH s Flowable.brk) p hp
    | item ht =>
      simp only [layoutPages, List.mem_cons] at hp
      rcases hp with hp | hp
      · subst hp
        exact page_le_layoutRun fH fs (layoutStep fH s (Flowable.item ht))
      · exact ih (layoutStep fH s (Flowable.item ht)) p hp

/-- One page is recorded per flowable. -/
theorem layoutPages_length (fH : ℤ) :
    ∀ (fs : List Flowable) (s : LayoutState),
      (layoutPages fH s fs).length = fs.length := by
  intro fs
  induction fs with
  | nil => intro s; rfl
  | cons f fs ih => intro s; simp only [layoutPages, List.length_cons, ih]

/-- C6: split the document's flowable sequence at any explicit
`PageBreak` marker; every element before the marker is placed on a
strictly smaller page than every element after it — the content
following the marker never shares a page with the content preceding
it. -/
theorem pagebreak_starts_new_page
    (h : ℕ → ℤ) (xs ys : List Flowable) (p q : ℕ)
    (hsplit : flowsOf h elements = xs ++ Flowable.brk :: ys)
    (hp : p ∈ (layoutPages frameHeight (initState frameHeight)
      (flowsOf h elements)).take xs.length)
    (hq : q ∈ (layoutPages frameHeight (initState frameHeight)
      (flowsOf h elements)).drop (xs.length + 1)) :
    p < q := by
  rw [hsplit, layoutPages_append] at hp hq
  have hlen : (layoutPages frameHeight (initState frameHeight) xs).length
      = xs.length := layoutPages_length frameHeight xs _
  rw [← hlen, List.take_left] at hp
  have hple : p ≤ (layoutRun frameHeight (initState frameHeight) xs).page :=
    mem_layoutPages_le frameHeight xs _ p hp
  have hexp : layoutPages frameHeight
        (layoutRun frameHeight (initState frameHeight) xs)
        (Flowable.brk :: ys)
      = (layoutRun frameHeight (initState frameHeight) xs).page
        :: layoutPages frameHeight
          (layoutStep frameHeight
            (layoutRun frameHeight (initState frameHeight) xs)
            Flowable.brk) ys := rfl
  rw [hexp, ← List.singleton_append, ← List.append_assoc] at hq
  have hlen2 : (layoutPages frameHeight (initState frameHeight) xs
        ++ [(layoutRun frameHeight (initState frameHeight) xs).page]).length
      = xs.length + 1 := by
    simp [hlen]
  rw [← hlen2, List.drop_left] at hq
  have hqge := mem_layoutPages_ge frameHeight ys _ q hq
  simp only [layoutStep] at hqge
  omega

/-- Witness for `pagebreak_starts_new_page`: the first `PageBreak` of the
document (index 9, closing the cover page) with zero content heights;
the cover lands on page 1 and the table of contents on page 2. -/
theorem pagebreak_starts_new_page_witness :
    flowsOf zeroHeights elements
      = coverFlows ++ Flowable.brk :: afterCoverFlows ∧
    1 ∈ (layoutPages frameHeight (initState frameHeight)
      (flowsOf zeroHeights elements)).take coverFlows.length ∧
    2 ∈ (layoutPages frameHeight (initState frameHeight)
      (flowsOf zeroHeights elements)).drop (coverFlows.length + 1) ∧
    1 < 2 :=
  ⟨by decide, by decide, by decide,
    pagebreak_starts_new_page zeroHeights coverFlows afterCoverFlows 1 2
      (by decide) (by decide) (by decide)⟩

/-- The decoration pass stamps consecutive canvas page numbers. -/
theorem decorateFrom_getElem :
    ∀ (n c i : ℕ), i < n → (decorateFrom c n)[i]? = some (on_page (c + i)) := by
  intro n
  induction n with
  | zero => intro c i hi; exact absurd hi (by omega)
  | succ n ih =>
    intro c i hi
    cases i with
    | zero => simp [decorateFrom]
    | succ i =>
      simp only [decorateFrom, List.getElem?_cons_succ]
      rw [ih (c + 1) i (by omega)]
      have h4 : c + 1 + i = c + (i + 1) := by omega
      rw [h4]

/-- C5: on every page `k` of an `N`-page document, `1 ≤ k ≤ N`, the
decoration is `on_page k`, whose only text stamp reads `Page k`,
right-aligned at the fixed point `(PAGE_WIDTH - 20mm, 12mm)` below the
bottom margin; the stamped numbers are therefore `1, 2, ..., N` in
order, with no gaps or repeats. -/
theorem page_number_stamp_correct (N k : ℕ) (h1 : 1 ≤ k) (h2 : k ≤ N) :
    (decoratePages N)[k - 1]? = some (on_page k) ∧
    stampsOf (on_page k)
      = [DrawCmd.rightString (PAGE_WIDTH - 20 * mm) (12 * mm) "SourceSans"
          (9 * pt) TEXT_LIGHT ("Page " ++ toString k)] ∧
    12 * mm < doc.bottomMargin := by
  refine ⟨?_, rfl, by decide⟩
  have h3 := decorateFrom_getElem N 1 (k - 1) (by omega)
  have h4 : 1 + (k - 1) = k := by omega
  rw [decoratePages, h3, h4]

/-- Witness for `page_number_stamp_correct`: page 2 of a 3-page
document. -/
theorem page_number_stamp_correct_witness :
    1 ≤ 2 ∧ 2 ≤ 3 ∧
    ((decoratePages 3)[2 - 1]? = some (on_page 2) ∧
      stampsOf (on_page 2)
        = [DrawCmd.rightString (PAGE_WIDTH - 20 * mm) (12 * mm) "SourceSans"
            (9 * pt) TEXT_LIGHT ("Page " ++ toString 2)] ∧
      12 * mm < doc.bottomMargin) :=
  ⟨by decide, by decide, page_number_stamp_correct 3 2 (by decide) (by decide)⟩
